import Mathlib

/-!
Verification of the imposter module (`src/models/imposter.js`): the imposter
lifecycle and response-resolution pipeline of a service-virtualization tool.
The JavaScript source is shallowly embedded: the imposter's closure-captured
mutable variables (`numberOfRequests`, `requests`, the stub store handle and
the shared `imposterState` bag) become fields of an `Imposter` state record,
and each operation becomes a pure function from state to state and output.
External collaborators (stub store matching, the resolver, the proxy
resolver) are parameters gathered in an `Env` record, exactly as the source
receives them from the protocol server.
-/

namespace Mountebank

/-- Inbound protocol requests are opaque payloads to the imposter core. -/
abbrev Request := Nat

/-- The shared mutable per-imposter state bag (`imposterState` in the source),
opaque to the core and threaded through matching and resolution. -/
abbrev StateBag := Nat

/-- The opaque ResponseConfiguration token returned by `stubs.getResponseFor`. -/
abbrev ResponseConfig := Nat

/-- A resolved response value.  `proxy` models the truthiness of the
`response.proxy` field (a pending proxy handoff); `wrapper` models the
`response.response` field that out-of-process resolution wraps the real
answer in; the trailing `Nat` is the rest of the value, opaque to the core. -/
inductive RespVal : Type where
  | mk : Bool → Option RespVal → Nat → RespVal

/-- Truthiness of the `proxy` field of a resolved response. -/
def RespVal.proxy : RespVal → Bool
  | .mk p _ _ => p

/-- The `response` wrapper field of a resolved response (out-of-process
resolution wraps the result in an outer response object). -/
def RespVal.wrapper : RespVal → Option RespVal
  | .mk _ w _ => w

/-- A JavaScript error as seen by the error handler: `errno` plus the rest of
the error object, opaque. -/
structure JsError where
  errno : Option String
  payload : Nat
deriving DecidableEq

/-- Command-line options consumed by the imposter (`config` in the source):
the global force-recording flag (`--mock`) and the global record-matches
flag (`--debug`). -/
structure Config where
  recordRequests : Bool
  recordMatches : Bool
deriving DecidableEq

/-- The `is` body of a stub response; `proxyResponseTime` models presence of
the internal `_proxyResponseTime` field, the rest is opaque. -/
structure IsBody where
  proxyResponseTime : Option Nat
  payload : Nat
deriving DecidableEq

/-- One response inside a stub, as it appears in the stub-store snapshot.
`is` is the literal response body when present; `proxy` is present exactly
when the response object has its own `proxy` property. -/
structure StubResponse where
  is : Option IsBody
  proxy : Option Nat
  payload : Nat
deriving DecidableEq

/-- One stub, as it appears in the stub-store snapshot: an optional match
history (the stub's `matches` field — that name is reserved in Lean), a
response list, and the opaque remainder (predicates, ...). -/
structure Stub where
  matchList : Option (List Nat)
  responses : List StubResponse
  payload : Nat
deriving DecidableEq

/-- Protocol-specific server metadata, whose keys are spread into the
serialized record; opaque to the core. -/
abbrev Metadata := List (String × Nat)

/-- The parsed imposter-creation JSON (`creationRequest` in the source),
restricted to the fields the core reads. -/
structure CreationRequest where
  protocol : String
  port : Nat
  name : Option String
  recordRequests : Bool
deriving DecidableEq

/-- An entry of the recorded-request log: a deep copy of the inbound request
plus the capture timestamp. -/
structure RecordedRequest where
  request : Request
  timestamp : Nat
deriving DecidableEq

/-- The live imposter state: the variables captured by the closures in
`create` (`numberOfRequests`, `requests`, `imposterState`, the stub store,
the bound server port and metadata) together with the immutable creation
inputs. -/
structure Imposter where
  config : Config
  creationRequest : CreationRequest
  serverPort : Nat
  metadata : Metadata
  numberOfRequests : Nat
  requests : List RecordedRequest
  stubStore : List Stub
  stateBag : StateBag
  stopped : Bool
deriving DecidableEq

/-- `const recordRequests = config.recordRequests || creationRequest.recordRequests`:
recording is on when either the global force-recording flag or the
per-imposter flag is set. -/
def Imposter.recordingEnabled (imp : Imposter) : Bool :=
  imp.config.recordRequests || imp.creationRequest.recordRequests

/-- The external collaborators the imposter delegates to, exactly the
interface the source consumes from the protocol server: the stub store's
matcher, the resolver's two entry points, and the stub store's proxy reset.
Matching and resolution may mutate the shared state bag and may fail. -/
structure Env where
  stubsGetResponseFor : Request → StateBag → Except JsError (ResponseConfig × StateBag)
  resolve : ResponseConfig → Request → StateBag → Except JsError (RespVal × StateBag)
  resolveProxy : RespVal → Nat → Except JsError RespVal
  resetProxiesFn : List Stub → List Stub

/-- An observable call to a ResponseConfiguration's match recording:
`recordMatch cfg r` is `responseConfig.recordMatch(r)`; `recordSelfMatch r`
is `response.recordMatch()` on the proxy-completion path. -/
inductive Event : Type where
  | recordMatch : ResponseConfig → RespVal → Event
  | recordSelfMatch : RespVal → Event

/-- The synchronous head of `getResponseFor`: `numberOfRequests += 1`, then,
when recording is enabled, push a clone of the request stamped with the
current time onto the recorded-request log. -/
def preRecord (imp : Imposter) (request : Request) (time : Nat) : Imposter :=
  if imp.recordingEnabled then
    { imp with numberOfRequests := imp.numberOfRequests + 1,
               requests := imp.requests ++ [{ request := request, timestamp := time }] }
  else
    { imp with numberOfRequests := imp.numberOfRequests + 1 }

/-- `getResponseFor(request)`: bump the request counter, append to the
recorded-request log when recording is enabled, match a ResponseConfiguration,
resolve it, and record the match when the global flag asks for it and the
response is not a pending proxy handoff.  `time` is the wall clock read for
the timestamp.  Returns the updated state, and either the resolution failure
or the response together with the recordMatch calls made. -/
def getResponseFor (env : Env) (imp : Imposter) (request : Request) (time : Nat) :
    Imposter × Except JsError (RespVal × List Event) :=
  match env.stubsGetResponseFor request (preRecord imp request time).stateBag with
  | .error e => (preRecord imp request time, .error e)
  | .ok (responseConfig, bag1) =>
    match env.resolve responseConfig request bag1 with
    | .error e => ({ preRecord imp request time with stateBag := bag1 }, .error e)
    | .ok (response, bag2) =>
      ({ preRecord imp request time with stateBag := bag2 },
       .ok (response,
         if imp.config.recordMatches && !response.proxy then
           match response.wrapper with
           | some inner => [Event.recordMatch responseConfig inner]
           | none => [Event.recordMatch responseConfig response]
         else []))

/-- `getProxyResponseFor(proxyResponse, proxyResolutionKey)`: delegate to the
resolver's proxy entry point, then record the match on the returned response
itself when the global flag asks for it.  Touches none of the imposter's
mutable fields. -/
def getProxyResponseFor (env : Env) (config : Config) (proxyResponse : RespVal)
    (proxyResolutionKey : Nat) : Except JsError (RespVal × List Event) :=
  match env.resolveProxy proxyResponse proxyResolutionKey with
  | .error e => .error e
  | .ok response =>
    if config.recordMatches then .ok (response, [Event.recordSelfMatch response])
    else .ok (response, [])

/-- Run a sequence of inbound requests (with their clock readings) through
`getResponseFor`, keeping only the evolving state. -/
def runRequests (env : Env) (imp : Imposter) : List (Request × Nat) → Imposter
  | [] => imp
  | (r, t) :: rest => runRequests env (getResponseFor env imp r t).1 rest

/-- The typed failures `createErrorHandler` maps transport errors to:
`ResourceConflictError` with its message, `InsufficientAccessError`, or the
original error propagated unchanged. -/
inductive CreateFailure : Type where
  | resourceConflict : String → CreateFailure
  | insufficientAccess : CreateFailure
  | otherError : JsError → CreateFailure
deriving DecidableEq

/-- `createErrorHandler(deferred, port)`: map a transport error raised during
bind to a typed failure by its `errno`. -/
def createErrorHandler (port : Nat) (error : JsError) : CreateFailure :=
  if error.errno = some "EADDRINUSE" then
    CreateFailure.resourceConflict ("Port " ++ toString port ++ " is already in use")
  else if error.errno = some "EACCES" then
    CreateFailure.insufficientAccess
  else
    CreateFailure.otherError error

/-- The asynchronous result of `create`: the protocol server either raises an
error into the domain before the server is live — the deferred is rejected
with the handler's mapped failure and no imposter value is ever produced —
or binds, and the deferred resolves to the live imposter. -/
def createResult (port : Nat) (bindOutcome : Except JsError Imposter) :
    Except CreateFailure Imposter :=
  match bindOutcome with
  | .error e => .error (createErrorHandler port e)
  | .ok imp => .ok imp

/-- The options record accepted by `toJSON`: absent options are `false`. -/
structure Options where
  list : Bool
  replayable : Bool
  removeProxies : Bool
deriving DecidableEq

/-- The plain record `toJSON` builds.  Fields that the source adds or
deletes dynamically are `Option`s; `none` is an absent property.  `links`
models `_links` by its `self.href` string. -/
structure ImposterJSON where
  protocol : String
  port : Nat
  numberOfRequests : Option Nat
  name : Option String
  recordRequests : Option Bool
  metadata : Option Metadata
  requests : Option (List RecordedRequest)
  stubs : Option (List Stub)
  links : Option String
deriving DecidableEq

/-- Modelled from the spec: the Stub Store's `stubs()` operation ("stubs() →
ordered snapshot") returns an ordered deep-copy snapshot of the current stub
rules — for immutable values, the list itself.  The stub store implementation
is not among this repository's source files. -/
def stubsSnapshot (store : List Stub) : List Stub := store

/-- `addDetailsTo(result)`: set `name` when the creation request has a truthy
name, `recordRequests` to `Boolean(creationRequest.recordRequests)`, spread
the server metadata, and attach the recorded-request log and the stub-store
snapshot. -/
def addDetailsTo (imp : Imposter) (result : ImposterJSON) : ImposterJSON :=
  let r1 : ImposterJSON :=
    match imp.creationRequest.name with
    | some n => if n.isEmpty then result else { result with name := some n }
    | none => result
  { r1 with recordRequests := some imp.creationRequest.recordRequests,
            metadata := some imp.metadata,
            requests := some imp.requests,
            stubs := some (stubsSnapshot imp.stubStore) }

/-- The per-response part of `removeNonEssentialInformationFrom`: delete
`_proxyResponseTime` from a literal `is` body that carries one. -/
def stripTime (resp : StubResponse) : StubResponse :=
  match resp.is with
  | some isb =>
    if isb.proxyResponseTime.isSome then
      { resp with is := some { isb with proxyResponseTime := none } }
    else resp
  | none => resp

/-- The per-stub part of `removeNonEssentialInformationFrom`: delete the
match history when present, and delete `_proxyResponseTime` from every
literal `is` body that carries one. -/
def stripRuntimeData (stub : Stub) : Stub :=
  let s1 : Stub := if stub.matchList.isSome then { stub with matchList := none } else stub
  { s1 with responses := s1.responses.map stripTime }

/-- `removeNonEssentialInformationFrom(result)`: strip per-stub runtime data,
then delete `numberOfRequests`, `requests` and `_links`.  When the detail
block was suppressed, `result.stubs` is undefined and `result.stubs.forEach`
throws a TypeError, modelled as `.error ()`. -/
def removeNonEssentialInformationFrom (result : ImposterJSON) :
    Except Unit ImposterJSON :=
  match result.stubs with
  | none => .error ()
  | some stubList =>
    .ok { result with stubs := some (stubList.map stripRuntimeData),
                      numberOfRequests := none,
                      requests := none,
                      links := none }

/-- The stub-list part of `removeProxiesFrom`: keep, in each stub, only the
responses not owning a `proxy` property, then keep only the stubs left with a
non-empty response list. -/
def dropProxyResponses (stubList : List Stub) : List Stub :=
  (stubList.map (fun stub =>
      { stub with responses := stub.responses.filter (fun resp => resp.proxy.isNone) })).filter
    (fun stub => stub.responses.length > 0)

/-- `removeProxiesFrom(result)`: drop every response owning a `proxy`
property from each stub, then drop every stub left with no responses.  As
above, an absent `result.stubs` throws, modelled as `.error ()`. -/
def removeProxiesFrom (result : ImposterJSON) : Except Unit ImposterJSON :=
  match result.stubs with
  | none => .error ()
  | some stubList =>
    .ok { result with stubs := some (dropProxyResponses stubList) }

/-- `toJSON(options)`: build the base record (protocol, port, request
counter), add the detail block unless `options.list`, attach the
self-reference link, then apply the `replayable` and `removeProxies`
transforms in that order. -/
def toJSON (imp : Imposter) (options : Options) : Except Unit ImposterJSON :=
  let result0 : ImposterJSON :=
    { protocol := imp.creationRequest.protocol,
      port := imp.serverPort,
      numberOfRequests := some imp.numberOfRequests,
      name := none, recordRequests := none, metadata := none,
      requests := none, stubs := none, links := none }
  let result1 := if options.list then result0 else addDetailsTo imp result0
  let result2 : ImposterJSON :=
    { result1 with links := some ("/imposters/" ++ toString imp.serverPort) }
  match (if options.replayable then removeNonEssentialInformationFrom result2
         else .ok result2 : Except Unit ImposterJSON) with
  | .error e => .error e
  | .ok r => if options.removeProxies then removeProxiesFrom r else .ok r

/-- `toJSON` as a state transformer: it reads the closure variables and
builds a fresh record, assigning to none of them, so the state component of
the pair is the incoming state. -/
def toJSONStep (imp : Imposter) (options : Options) :
    Imposter × Except Unit ImposterJSON :=
  (imp, toJSON imp options)

/-- The operations the resolved imposter object exposes to callers. -/
inductive Op : Type where
  | getResponse : Request → Nat → Op
  | proxyResponse : RespVal → Nat → Op
  | addStubOp : Stub → Op
  | serialize : Options → Op
  | resetProxies : Op
  | stop : Op

/-- The effect of each exposed operation on the imposter's state.
`getResponse` is `getResponseFor`; `proxyResponse` is `getProxyResponseFor`,
which reads only the resolver and the global config and touches none of the
imposter's mutable fields; `addStubOp` delegates to the stub store's
`addStub` (modelled from the spec: registers the rule at the end of the
ordered rule list); `serialize` is `toJSON`; `resetProxies` delegates to the
stub store's `resetProxies` (modelled from the spec as an arbitrary
stub-store endomap, opaque to the core); `stop` asks the transport to close. -/
def step (env : Env) (imp : Imposter) : Op → Imposter
  | .getResponse r t => (getResponseFor env imp r t).1
  | .proxyResponse _ _ => imp
  | .addStubOp s => { imp with stubStore := imp.stubStore ++ [s] }
  | .serialize o => (toJSONStep imp o).1
  | .resetProxies => { imp with stubStore := env.resetProxiesFn imp.stubStore }
  | .stop => { imp with stopped := true }

/-- The value `addDetailsTo` puts in the `name` property: the creation
request's name when it is truthy (present and non-empty), absent otherwise. -/
def truthyName (imp : Imposter) : Option String :=
  match imp.creationRequest.name with
  | some n => if n.isEmpty then none else some n
  | none => none

/-- Closed form of the record `toJSON` builds before the optional transforms
when the detail block is requested (no `list` option). -/
def detailRecord (imp : Imposter) : ImposterJSON :=
  { protocol := imp.creationRequest.protocol,
    port := imp.serverPort,
    numberOfRequests := some imp.numberOfRequests,
    name := truthyName imp,
    recordRequests := some imp.creationRequest.recordRequests,
    metadata := some imp.metadata,
    requests := some imp.requests,
    stubs := some (stubsSnapshot imp.stubStore),
    links := some ("/imposters/" ++ toString imp.serverPort) }

/-- Closed form of the record `toJSON` builds under the `list` option: the
base fields and the self-reference link, no detail block. -/
def listRecord (imp : Imposter) : ImposterJSON :=
  { protocol := imp.creationRequest.protocol,
    port := imp.serverPort,
    numberOfRequests := some imp.numberOfRequests,
    name := none,
    recordRequests := none,
    metadata := none,
    requests := none,
    stubs := none,
    links := some ("/imposters/" ++ toString imp.serverPort) }

/-- A concrete environment for evaluating the theorems: matching always
yields configuration 7 and leaves the bag alone, resolution yields a plain
in-process response, proxy resolution echoes its input. -/
def sampleEnv : Env :=
  { stubsGetResponseFor := fun _ bag => .ok (7, bag),
    resolve := fun _ _ bag => .ok (RespVal.mk false none 3, bag),
    resolveProxy := fun r _ => .ok r,
    resetProxiesFn := fun s => s }

/-- A concrete proxy-type stub response. -/
def proxyStubResponse : StubResponse := { is := none, proxy := some 1, payload := 0 }

/-- A concrete literal (`is`) stub response carrying `_proxyResponseTime`. -/
def literalStubResponse : StubResponse :=
  { is := some { proxyResponseTime := some 5, payload := 2 }, proxy := none, payload := 1 }

/-- A concrete stub with a recorded match history and mixed responses. -/
def mixedStub : Stub :=
  { matchList := some [4], responses := [literalStubResponse, proxyStubResponse], payload := 0 }

/-- A concrete stub whose only response is proxy-type. -/
def proxyOnlyStub : Stub :=
  { matchList := none, responses := [proxyStubResponse], payload := 1 }

/-- A freshly created concrete imposter with global recording forced on and
the per-imposter recording flag off. -/
def sampleImposter : Imposter :=
  { config := { recordRequests := true, recordMatches := true },
    creationRequest :=
      { protocol := "http", port := 3535, name := some "origin", recordRequests := false },
    serverPort := 3535,
    metadata := [("mode", 1)],
    numberOfRequests := 0,
    requests := [],
    stubStore := [mixedStub, proxyOnlyStub],
    stateBag := 0,
    stopped := false }

/-- A concrete imposter with recording fully disabled. -/
def quietImposter : Imposter :=
  { sampleImposter with config := { recordRequests := false, recordMatches := false } }

/-- A concrete imposter that has already seen traffic: non-zero counter and a
non-empty recorded-request log. -/
def busyImposter : Imposter :=
  { sampleImposter with
    numberOfRequests := 5,
    requests := [{ request := 1, timestamp := 10 }] }

/-- A default record, used only as the `getD` fallback below. -/
def fallbackJSON : ImposterJSON :=
  { protocol := "", port := 0, numberOfRequests := none, name := none,
    recordRequests := none, metadata := none, requests := none, stubs := none,
    links := none }

/-- The record `toJSON` returns for `busyImposter` with no options. -/
def busyPlainJSON : ImposterJSON :=
  (toJSON busyImposter
    { list := false, replayable := false, removeProxies := false }).toOption.getD fallbackJSON

/-- The record `toJSON` returns for `busyImposter` with `list`. -/
def busyListJSON : ImposterJSON :=
  (toJSON busyImposter
    { list := true, replayable := false, removeProxies := false }).toOption.getD fallbackJSON

/-- The record `toJSON` returns for `busyImposter` with `replayable`. -/
def busyReplayJSON : ImposterJSON :=
  (toJSON busyImposter
    { list := false, replayable := true, removeProxies := false }).toOption.getD fallbackJSON

/-- The record `toJSON` returns for `busyImposter` with `removeProxies`. -/
def busyNoProxyJSON : ImposterJSON :=
  (toJSON busyImposter
    { list := false, replayable := false, removeProxies := true }).toOption.getD fallbackJSON

theorem preRecord_numberOfRequests (imp : Imposter) (r : Request) (t : Nat) :
    (preRecord imp r t).numberOfRequests = imp.numberOfRequests + 1 := by
  unfold preRecord
  by_cases h : imp.recordingEnabled <;> simp [h]

theorem preRecord_requests (imp : Imposter) (r : Request) (t : Nat) :
    (preRecord imp r t).requests =
      if imp.recordingEnabled then
        imp.requests ++ [{ request := r, timestamp := t }]
      else imp.requests := by
  unfold preRecord
  by_cases h : imp.recordingEnabled <;> simp [h]

theorem preRecord_config (imp : Imposter) (r : Request) (t : Nat) :
    (preRecord imp r t).config = imp.config := by
  unfold preRecord
  by_cases h : imp.recordingEnabled <;> simp [h]

theorem preRecord_creationRequest (imp : Imposter) (r : Request) (t : Nat) :
    (preRecord imp r t).creationRequest = imp.creationRequest := by
  unfold preRecord
  by_cases h : imp.recordingEnabled <;> simp [h]

theorem getResponseFor_shape (env : Env) (imp : Imposter) (r : Request) (t : Nat) :
    ∃ b, (getResponseFor env imp r t).1 = { preRecord imp r t with stateBag := b } := by
  unfold getResponseFor
  split
  · exact ⟨(preRecord imp r t).stateBag, rfl⟩
  · split
    · exact ⟨_, rfl⟩
    · exact ⟨_, rfl⟩

theorem getResponseFor_numberOfRequests (env : Env) (imp : Imposter) (r : Request) (t : Nat) :
    ((getResponseFor env imp r t).1).numberOfRequests = imp.numberOfRequests + 1 := by
  obtain ⟨b, hb⟩ := getResponseFor_shape env imp r t
  rw [hb]
  exact preRecord_numberOfRequests imp r t

theorem getResponseFor_requests (env : Env) (imp : Imposter) (r : Request) (t : Nat) :
    ((getResponseFor env imp r t).1).requests =
      if imp.recordingEnabled then
        imp.requests ++ [{ request := r, timestamp := t }]
      else imp.requests := by
  obtain ⟨b, hb⟩ := getResponseFor_shape env imp r t
  rw [hb]
  exact preRecord_requests imp r t

theorem getResponseFor_recordingEnabled (env : Env) (imp : Imposter) (r : Request) (t : Nat) :
    ((getResponseFor env imp r t).1).recordingEnabled = imp.recordingEnabled := by
  obtain ⟨b, hb⟩ := getResponseFor_shape env imp r t
  rw [hb]
  unfold Imposter.recordingEnabled
  rw [show ({ preRecord imp r t with stateBag := b } : Imposter).config = (preRecord imp r t).config from rfl,
    show ({ preRecord imp r t with stateBag := b } : Imposter).creationRequest = (preRecord imp r t).creationRequest from rfl,
    preRecord_config, preRecord_creationRequest]

theorem runRequests_numberOfRequests (env : Env) :
    ∀ (rs : List (Request × Nat)) (imp : Imposter),
      (runRequests env imp rs).numberOfRequests = imp.numberOfRequests + rs.length
  | [], imp => by simp [runRequests]
  | (r, t) :: rest, imp => by
    rw [runRequests, runRequests_numberOfRequests env rest,
      getResponseFor_numberOfRequests]
    simp [List.length_cons]
    omega

theorem runRequests_requests (env : Env) :
    ∀ (rs : List (Request × Nat)) (imp : Imposter),
      (runRequests env imp rs).requests =
        if imp.recordingEnabled then
          imp.requests ++ rs.map (fun p => { request := p.1, timestamp := p.2 })
        else imp.requests
  | [], imp => by simp [runRequests]
  | (r, t) :: rest, imp => by
    rw [runRequests, runRequests_requests env rest,
      getResponseFor_recordingEnabled, getResponseFor_requests]
    by_cases h : imp.recordingEnabled = true
    · simp [h]
    · simp [h]

theorem addDetailsTo_base_eq (imp : Imposter) :
    addDetailsTo imp
      { protocol := imp.creationRequest.protocol,
        port := imp.serverPort,
        numberOfRequests := some imp.numberOfRequests,
        name := none, recordRequests := none, metadata := none,
        requests := none, stubs := none, links := none } =
      { protocol := imp.creationRequest.protocol,
        port := imp.serverPort,
        numberOfRequests := some imp.numberOfRequests,
        name := truthyName imp,
        recordRequests := some imp.creationRequest.recordRequests,
        metadata := some imp.metadata,
        requests := some imp.requests,
        stubs := some (stubsSnapshot imp.stubStore),
        links := none } := by
  unfold addDetailsTo truthyName
  cases h : imp.creationRequest.name with
  | none => rfl
  | some n => by_cases he : n.isEmpty <;> simp [he]

theorem toJSON_eq (imp : Imposter) (o : Options) :
    toJSON imp o =
      if o.list then
        (if o.replayable || o.removeProxies then .error () else .ok (listRecord imp))
      else if o.replayable then
        (if o.removeProxies then
          .ok { detailRecord imp with
                stubs := some (dropProxyResponses
                  ((stubsSnapshot imp.stubStore).map stripRuntimeData)),
                numberOfRequests := none, requests := none, links := none }
        else
          .ok { detailRecord imp with
                stubs := some ((stubsSnapshot imp.stubStore).map stripRuntimeData),
                numberOfRequests := none, requests := none, links := none })
      else if o.removeProxies then
        .ok { detailRecord imp with
              stubs := some (dropProxyResponses (stubsSnapshot imp.stubStore)) }
      else .ok (detailRecord imp) := by
  rcases o with ⟨l, rep, rem⟩
  cases l <;> cases rep <;> cases rem <;>
    simp [toJSON, listRecord, addDetailsTo_base_eq,
      removeNonEssentialInformationFrom, removeProxiesFrom, detailRecord]

theorem stripTime_is (resp : StubResponse) :
    (stripTime resp).is =
      resp.is.map (fun isb => { isb with proxyResponseTime := none }) := by
  unfold stripTime
  rcases hr : resp.is with _ | ⟨pt, pl⟩
  · simp [hr]
  · cases pt <;> simp [hr]

theorem stripRuntimeData_eq (s : Stub) :
    stripRuntimeData s =
      { matchList := none, responses := s.responses.map stripTime,
        payload := s.payload } := by
  unfold stripRuntimeData
  rcases hm : s.matchList with _ | m <;> simp [hm]

theorem clean_of_strip_mem (sl : List Stub) (s : Stub)
    (h : s ∈ sl.map stripRuntimeData) :
    s.matchList = none ∧
    ∀ resp ∈ s.responses, ∀ isb, resp.is = some isb →
      isb.proxyResponseTime = none := by
  rw [List.mem_map] at h
  obtain ⟨s0, hs0, rfl⟩ := h
  rw [stripRuntimeData_eq]
  refine ⟨rfl, ?_⟩
  intro resp hresp isb his
  simp only [List.mem_map] at hresp
  obtain ⟨r0, hr0, rfl⟩ := hresp
  rw [stripTime_is] at his
  rcases hr : r0.is with _ | isb0 <;> rw [hr] at his
  · cases his
  · injection his with h2
    rw [← h2]

theorem dropProxyResponses_mem (sl : List Stub) (s : Stub)
    (h : s ∈ dropProxyResponses sl) :
    (∀ resp ∈ s.responses, resp.proxy = none) ∧ s.responses ≠ [] ∧
    ∃ s0 ∈ sl, s.matchList = s0.matchList ∧
      s.responses = s0.responses.filter (fun resp => resp.proxy.isNone) := by
  unfold dropProxyResponses at h
  rw [List.mem_filter] at h
  obtain ⟨hmem, hlen⟩ := h
  rw [List.mem_map] at hmem
  obtain ⟨s0, hs0, rfl⟩ := hmem
  refine ⟨?_, ?_, s0, hs0, rfl, rfl⟩
  · intro resp hresp
    have hresp2 : resp ∈ List.filter (fun resp => resp.proxy.isNone) s0.responses := hresp
    have hp := (List.mem_filter.mp hresp2).2
    simpa [Option.isNone_iff_eq_none] using hp
  · have hlen2 : 0 < (List.filter (fun resp => resp.proxy.isNone) s0.responses).length := by
      simpa using hlen
    exact List.length_pos.mp hlen2

/-- Claim C1: for every sequence of N calls to `getResponseFor` on a
listening imposter that starts with a zero counter, `numberOfRequests`
afterwards equals N — the counter is incremented exactly once per inbound
request, before matching or resolution, and this holds regardless of how
many requests fail stub matching or resolution (the environment, including
always-failing matchers and resolvers, is universally quantified). -/
theorem request_counter_counts_every_request (env : Env) (imp imp2 : Imposter)
    (rs : List (Request × Nat)) (r : Request) (t : Nat)
    (h : imp.numberOfRequests = 0) :
    (runRequests env imp rs).numberOfRequests = rs.length ∧
    ((getResponseFor env imp2 r t).1).numberOfRequests = imp2.numberOfRequests + 1 := by
  refine ⟨?_, getResponseFor_numberOfRequests env imp2 r t⟩
  rw [runRequests_numberOfRequests env rs imp, h]
  omega

/-- Witness for C1 at a concrete imposter, environment and request trace. -/
theorem request_counter_counts_every_request_witness :
    (runRequests sampleEnv sampleImposter [(1, 10), (2, 11), (3, 12)]).numberOfRequests = 3 ∧
    ((getResponseFor sampleEnv sampleImposter 5 9).1).numberOfRequests =
      sampleImposter.numberOfRequests + 1 :=
  request_counter_counts_every_request sampleEnv sampleImposter sampleImposter
    [(1, 10), (2, 11), (3, 12)] 5 9 rfl

/-- Claim C2: when recording is enabled (per-imposter flag or the global
force-recording flag), after handling the requests in `rs` the
recorded-request log has exactly one entry per request, each a copy of its
inbound request stamped with that request's clock reading — hence not before
the creation time `t0` whenever the clock never runs behind it; when
recording is disabled, the log stays empty whatever the traffic. -/
theorem recorded_request_log_spec (env : Env) (imp impOff : Imposter)
    (rs : List (Request × Nat)) (t0 : Nat) (e : RecordedRequest)
    (hOn : imp.recordingEnabled = true) (hEmpty : imp.requests = [])
    (hClock : ∀ p ∈ rs, t0 ≤ p.2)
    (hOff : impOff.recordingEnabled = false) (hOffEmpty : impOff.requests = []) :
    (runRequests env imp rs).requests =
      rs.map (fun p => { request := p.1, timestamp := p.2 }) ∧
    (runRequests env imp rs).requests.length = rs.length ∧
    (e ∈ (runRequests env imp rs).requests → t0 ≤ e.timestamp) ∧
    (runRequests env impOff rs).requests = [] := by
  have hmain : (runRequests env imp rs).requests =
      rs.map (fun p => { request := p.1, timestamp := p.2 }) := by
    rw [runRequests_requests env rs imp, hOn, hEmpty]
    simp
  refine ⟨hmain, by rw [hmain]; simp, ?_, ?_⟩
  · intro he
    rw [hmain] at he
    simp only [List.mem_map] at he
    obtain ⟨p, hp, rfl⟩ := he
    exact hClock p hp
  · rw [runRequests_requests env rs impOff, hOff]
    simp [hOffEmpty]

/-- Witness for C2: a recording imposter logs both requests verbatim; a
non-recording one logs nothing. -/
theorem recorded_request_log_spec_witness :
    (runRequests sampleEnv sampleImposter [(1, 10), (2, 11)]).requests =
      [(1, 10), (2, 11)].map (fun p => { request := p.1, timestamp := p.2 }) ∧
    (runRequests sampleEnv sampleImposter [(1, 10), (2, 11)]).requests.length = 2 ∧
    (({ request := 1, timestamp := 10 } : RecordedRequest) ∈
        (runRequests sampleEnv sampleImposter [(1, 10), (2, 11)]).requests →
      10 ≤ ({ request := 1, timestamp := 10 } : RecordedRequest).timestamp) ∧
    (runRequests sampleEnv quietImposter [(1, 10), (2, 11)]).requests = [] :=
  recorded_request_log_spec sampleEnv sampleImposter quietImposter
    [(1, 10), (2, 11)] 10 { request := 1, timestamp := 10 }
    rfl rfl (by decide) rfl rfl

/-- Claim C9: the recorded-request log never outgrows the request counter,
and every exposed operation (`getResponseFor`, `getProxyResponseFor`,
`addStub`, `toJSON`, `resetProxies`, `stop`) preserves this invariant. -/
theorem requests_le_counter_invariant (env : Env) (imp : Imposter) (op : Op)
    (h : imp.requests.length ≤ imp.numberOfRequests) :
    (step env imp op).requests.length ≤ (step env imp op).numberOfRequests := by
  cases op with
  | getResponse r t =>
    show ((getResponseFor env imp r t).1).requests.length ≤
      ((getResponseFor env imp r t).1).numberOfRequests
    rw [getResponseFor_numberOfRequests, getResponseFor_requests]
    by_cases hr : imp.recordingEnabled <;> simp [hr] <;> omega
  | proxyResponse pr k => exact h
  | addStubOp s => exact h
  | serialize o => exact h
  | resetProxies => exact h
  | stop => exact h

/-- Witness for C9 at a concrete imposter and a request-handling step. -/
theorem requests_le_counter_invariant_witness :
    (step sampleEnv sampleImposter (Op.getResponse 1 2)).requests.length ≤
      (step sampleEnv sampleImposter (Op.getResponse 1 2)).numberOfRequests :=
  requests_le_counter_invariant sampleEnv sampleImposter (Op.getResponse 1 2) (by decide)

/-- Claim C10: the `recordRequests` field of the detail block equals
`Boolean(creationRequest.recordRequests)` and does not reflect the global
force-recording flag: with the global flag set and the per-imposter flag
false, `toJSON` reports `recordRequests = false` even though every inbound
request is appended to the recorded-request log. -/
theorem recordRequests_reported_from_creation_only (env : Env) (imp : Imposter)
    (j : ImposterJSON) (r : Request) (t : Nat)
    (hGlobal : imp.config.recordRequests = true)
    (hLocal : imp.creationRequest.recordRequests = false)
    (h : toJSON imp { list := false, replayable := false, removeProxies := false } = .ok j) :
    j.recordRequests = some imp.creationRequest.recordRequests ∧
    j.recordRequests = some false ∧
    ((getResponseFor env imp r t).1).requests =
      imp.requests ++ [{ request := r, timestamp := t }] := by
  rw [toJSON_eq] at h
  simp at h
  subst h
  refine ⟨rfl, ?_, ?_⟩
  · show (detailRecord imp).recordRequests = some false
    rw [show (detailRecord imp).recordRequests =
      some imp.creationRequest.recordRequests from rfl, hLocal]
  · rw [getResponseFor_requests]
    simp [Imposter.recordingEnabled, hGlobal]

/-- Witness for C10: the busy imposter records under the global flag while
reporting `recordRequests: false`. -/
theorem recordRequests_reported_from_creation_only_witness :
    busyPlainJSON.recordRequests = some busyImposter.creationRequest.recordRequests ∧
    busyPlainJSON.recordRequests = some false ∧
    ((getResponseFor sampleEnv busyImposter 2 20).1).requests =
      busyImposter.requests ++ [{ request := 2, timestamp := 20 }] :=
  recordRequests_reported_from_creation_only sampleEnv busyImposter busyPlainJSON
    2 20 rfl rfl rfl

/-- Claim C3: a bind error with errno EADDRINUSE rejects creation with a
ResourceConflictError naming the requested port; errno EACCES rejects with
InsufficientAccessError; any other error propagates unchanged as an opaque
failure; and in every such failure case no imposter value is returned. -/
theorem create_error_mapping (port : Nat) (e : JsError) (imp : Imposter) :
    (e.errno = some "EADDRINUSE" →
      createResult port (.error e) =
        .error (CreateFailure.resourceConflict
          ("Port " ++ toString port ++ " is already in use"))) ∧
    (e.errno = some "EACCES" →
      createResult port (.error e) = .error CreateFailure.insufficientAccess) ∧
    (e.errno ≠ some "EADDRINUSE" → e.errno ≠ some "EACCES" →
      createResult port (.error e) = .error (CreateFailure.otherError e)) ∧
    createResult port (.error e) ≠ .ok imp := by
  refine ⟨?_, ?_, ?_, ?_⟩
  · intro h1
    simp [createResult, createErrorHandler, h1]
  · intro h2
    simp [createResult, createErrorHandler, h2]
  · intro h1 h2
    simp [createResult, createErrorHandler, h1, h2]
  · simp [createResult]

/-- Witness for C3 at port 3535 and a concrete EADDRINUSE error. -/
theorem create_error_mapping_witness :
    ((⟨some "EADDRINUSE", 0⟩ : JsError).errno = some "EADDRINUSE" →
      createResult 3535 (.error ⟨some "EADDRINUSE", 0⟩) =
        .error (CreateFailure.resourceConflict
          ("Port " ++ toString 3535 ++ " is already in use"))) ∧
    ((⟨some "EADDRINUSE", 0⟩ : JsError).errno = some "EACCES" →
      createResult 3535 (.error ⟨some "EADDRINUSE", 0⟩) =
        .error CreateFailure.insufficientAccess) ∧
    ((⟨some "EADDRINUSE", 0⟩ : JsError).errno ≠ some "EADDRINUSE" →
      (⟨some "EADDRINUSE", 0⟩ : JsError).errno ≠ some "EACCES" →
      createResult 3535 (.error ⟨some "EADDRINUSE", 0⟩) =
        .error (CreateFailure.otherError ⟨some "EADDRINUSE", 0⟩)) ∧
    createResult 3535 (.error ⟨some "EADDRINUSE", 0⟩) ≠ .ok sampleImposter :=
  create_error_mapping 3535 ⟨some "EADDRINUSE", 0⟩ sampleImposter

/-- Claim C4: when resolution succeeds, match recording is on and the
response is not a pending proxy handoff, `recordMatch` is invoked exactly
once on the matched ResponseConfiguration — with the inner wrapped response
when the response carries a `response` wrapper field, otherwise with the
response itself; and every successful `getProxyResponseFor` completion with
match recording on invokes `recordMatch` exactly once on the returned
response, with no wrapping logic. -/
theorem recordMatch_called_exactly_once (env : Env) (imp : Imposter)
    (r : Request) (t : Nat) (cfg : ResponseConfig) (bag1 bag2 : StateBag)
    (response proxyResp pResponse : RespVal) (key : Nat)
    (hMatch : env.stubsGetResponseFor r (preRecord imp r t).stateBag = .ok (cfg, bag1))
    (hResolve : env.resolve cfg r bag1 = .ok (response, bag2))
    (hFlag : imp.config.recordMatches = true)
    (hNotProxy : response.proxy = false)
    (hProxy : env.resolveProxy proxyResp key = .ok pResponse) :
    (getResponseFor env imp r t).2 =
      .ok (response, [Event.recordMatch cfg (response.wrapper.getD response)]) ∧
    getProxyResponseFor env imp.config proxyResp key =
      .ok (pResponse, [Event.recordSelfMatch pResponse]) := by
  constructor
  · unfold getResponseFor
    rw [hMatch]
    dsimp only
    rw [hResolve]
    dsimp only
    rw [hFlag, hNotProxy]
    cases hw : response.wrapper <;> simp [hw]
  · unfold getProxyResponseFor
    rw [hProxy]
    dsimp only
    rw [hFlag]
    simp

/-- Witness for C4: with the sample environment, the in-process response is
match-recorded once against configuration 7, and the proxy completion path
match-records the returned response once. -/
theorem recordMatch_called_exactly_once_witness :
    (getResponseFor sampleEnv sampleImposter 5 9).2 =
      .ok (RespVal.mk false none 3,
        [Event.recordMatch 7
          ((RespVal.mk false none 3).wrapper.getD (RespVal.mk false none 3))]) ∧
    getProxyResponseFor sampleEnv sampleImposter.config (RespVal.mk false none 9) 2 =
      .ok (RespVal.mk false none 9,
        [Event.recordSelfMatch (RespVal.mk false none 9)]) :=
  recordMatch_called_exactly_once sampleEnv sampleImposter 5 9 7 0 0
    (RespVal.mk false none 3) (RespVal.mk false none 9) (RespVal.mk false none 9) 2
    rfl rfl rfl rfl rfl

/-- Claim C5: `toJSON` is read-only — for every options value the
serialization step leaves the imposter state (request counter,
recorded-request log, stub store contents, state bag) unchanged; the
transforms operate on the serialization's own record, so the live state is
never mutated by serialization. -/
theorem toJSON_is_read_only (env : Env) (imp : Imposter) (o : Options) :
    step env imp (Op.serialize o) = imp ∧
    (toJSONStep imp o).1.numberOfRequests = imp.numberOfRequests ∧
    (toJSONStep imp o).1.requests = imp.requests ∧
    (toJSONStep imp o).1.stubStore = imp.stubStore ∧
    (toJSONStep imp o).1.stateBag = imp.stateBag :=
  ⟨rfl, rfl, rfl, rfl, rfl⟩

/-- Counterexample to C6 as stated: with the `replayable` option the record
returned by `toJSON` does not include the request counter — for the busy
imposter, whose live counter reads 5, the returned record's
`numberOfRequests` property is absent (the transform deletes it). -/
theorem toJSON_counter_not_always_included :
    Except.map (fun j => j.numberOfRequests)
      (toJSON busyImposter { list := false, replayable := true, removeProxies := false }) =
      .ok none ∧
    busyImposter.numberOfRequests = 5 :=
  ⟨rfl, rfl⟩

/-- Claim C6 (amended): every record returned by `toJSON` includes the
protocol name and the bound port; it includes the current request counter
value whenever the `replayable` transform is not requested (that transform
deletes the field); and when `options.list` is true the detail block fields
— name, recording flag, protocol metadata, recorded requests and stub
snapshot — are all absent, even when requests and stubs are non-empty. -/
theorem toJSON_base_record_fields (imp : Imposter) (o : Options) (j : ImposterJSON)
    (h : toJSON imp o = .ok j) :
    j.protocol = imp.creationRequest.protocol ∧
    j.port = imp.serverPort ∧
    (o.replayable = false → j.numberOfRequests = some imp.numberOfRequests) ∧
    (o.list = true → j.name = none ∧ j.recordRequests = none ∧ j.metadata = none ∧
      j.requests = none ∧ j.stubs = none) := by
  rw [toJSON_eq] at h
  rcases o with ⟨l, rep, rem⟩
  cases l <;> cases rep <;> cases rem <;> simp at h <;> subst h <;>
    simp [detailRecord, listRecord]

/-- Witness for C6 (amended) under the `list` option on a busy imposter with
non-empty requests and stubs. -/
theorem toJSON_base_record_fields_witness :
    busyListJSON.protocol = busyImposter.creationRequest.protocol ∧
    busyListJSON.port = busyImposter.serverPort ∧
    (({ list := true, replayable := false, removeProxies := false } : Options).replayable
        = false →
      busyListJSON.numberOfRequests = some busyImposter.numberOfRequests) ∧
    (({ list := true, replayable := false, removeProxies := false } : Options).list = true →
      busyListJSON.name = none ∧ busyListJSON.recordRequests = none ∧
      busyListJSON.metadata = none ∧ busyListJSON.requests = none ∧
      busyListJSON.stubs = none) :=
  toJSON_base_record_fields busyImposter
    { list := true, replayable := false, removeProxies := false } busyListJSON rfl

/-- Claim C7: with the `replayable` option the returned record contains no
per-stub match history, no `_proxyResponseTime` field inside any literal
`is` response body, no request counter field, no recorded-request log and no
self-reference link, while the remaining static configuration — protocol,
port, name, recording flag, metadata, and the stubs modulo exactly those
stripped runtime fields — is preserved. -/
theorem toJSON_replayable_spec (imp : Imposter) (o : Options) (j : ImposterJSON)
    (stub : Stub) (resp : StubResponse) (isb : IsBody)
    (hRep : o.replayable = true) (h : toJSON imp o = .ok j) :
    j.numberOfRequests = none ∧ j.requests = none ∧ j.links = none ∧
    (stub ∈ j.stubs.getD [] → stub.matchList = none) ∧
    (stub ∈ j.stubs.getD [] → resp ∈ stub.responses →
      resp.is = some isb → isb.proxyResponseTime = none) ∧
    (o.list = false → o.removeProxies = false →
      j.protocol = imp.creationRequest.protocol ∧
      j.port = imp.serverPort ∧
      j.name = truthyName imp ∧
      j.recordRequests = some imp.creationRequest.recordRequests ∧
      j.metadata = some imp.metadata ∧
      j.stubs = some ((stubsSnapshot imp.stubStore).map stripRuntimeData)) := by
  rw [toJSON_eq] at h
  rcases o with ⟨l, rep, rem⟩
  cases l
  · cases rep
    · exact absurd hRep (by simp)
    · cases rem
      · simp at h
        subst h
        refine ⟨rfl, rfl, rfl, ?_, ?_, ?_⟩
        · intro hstub
          exact (clean_of_strip_mem _ _ hstub).1
        · intro hstub hresp his
          exact (clean_of_strip_mem _ _ hstub).2 resp hresp isb his
        · intro _ _
          exact ⟨rfl, rfl, rfl, rfl, rfl, rfl⟩
      · simp at h
        subst h
        refine ⟨rfl, rfl, rfl, ?_, ?_, ?_⟩
        · intro hstub
          obtain ⟨-, -, s0, hs0, hm, -⟩ := dropProxyResponses_mem _ _ hstub
          rw [hm]
          exact (clean_of_strip_mem _ _ hs0).1
        · intro hstub hresp his
          obtain ⟨-, -, s0, hs0, -, hr⟩ := dropProxyResponses_mem _ _ hstub
          rw [hr] at hresp
          exact (clean_of_strip_mem _ _ hs0).2 resp (List.mem_of_mem_filter hresp) isb his
        · intro _ h2
          exact absurd h2 (by simp)
  · cases rep
    · exact absurd hRep (by simp)
    · cases rem <;> simp at h

/-- Witness for C7: the replayable serialization of the busy imposter. -/
theorem toJSON_replayable_spec_witness :
    busyReplayJSON.numberOfRequests = none ∧ busyReplayJSON.requests = none ∧
    busyReplayJSON.links = none ∧
    (stripRuntimeData mixedStub ∈ busyReplayJSON.stubs.getD [] →
      (stripRuntimeData mixedStub).matchList = none) ∧
    (stripRuntimeData mixedStub ∈ busyReplayJSON.stubs.getD [] →
      stripTime literalStubResponse ∈ (stripRuntimeData mixedStub).responses →
      (stripTime literalStubResponse).is =
        some { proxyResponseTime := none, payload := 2 } →
      ({ proxyResponseTime := none, payload := 2 } : IsBody).proxyResponseTime = none) ∧
    (({ list := false, replayable := true, removeProxies := false } : Options).list
        = false →
      ({ list := false, replayable := true, removeProxies := false } : Options).removeProxies
        = false →
      busyReplayJSON.protocol = busyImposter.creationRequest.protocol ∧
      busyReplayJSON.port = busyImposter.serverPort ∧
      busyReplayJSON.name = truthyName busyImposter ∧
      busyReplayJSON.recordRequests = some busyImposter.creationRequest.recordRequests ∧
      busyReplayJSON.metadata = some busyImposter.metadata ∧
      busyReplayJSON.stubs =
        some ((stubsSnapshot busyImposter.stubStore).map stripRuntimeData)) :=
  toJSON_replayable_spec busyImposter
    { list := false, replayable := true, removeProxies := false } busyReplayJSON
    (stripRuntimeData mixedStub) (stripTime literalStubResponse)
    { proxyResponseTime := none, payload := 2 } rfl rfl

/-- Claim C8: with the `removeProxies` option every stub in the returned
record has its response list filtered to exclude responses carrying a
`proxy` field — every remaining stub has only proxy-free responses and a
non-empty response list — and any stub whose responses were all proxy-type
is entirely absent: absent other options, the stub list is exactly the
snapshot with proxy responses dropped and emptied stubs removed. -/
theorem toJSON_removeProxies_spec (imp : Imposter) (o : Options) (j : ImposterJSON)
    (stub : Stub) (resp : StubResponse)
    (hRem : o.removeProxies = true) (h : toJSON imp o = .ok j) :
    (stub ∈ j.stubs.getD [] → resp ∈ stub.responses → resp.proxy = none) ∧
    (stub ∈ j.stubs.getD [] → stub.responses ≠ []) ∧
    (o.list = false → o.replayable = false →
      j.stubs = some (dropProxyResponses (stubsSnapshot imp.stubStore))) := by
  rw [toJSON_eq] at h
  rcases o with ⟨l, rep, rem⟩
  cases l
  · cases rem
    · exact absurd hRem (by simp)
    · cases rep
      · simp at h
        subst h
        refine ⟨?_, ?_, ?_⟩
        · intro hstub hresp
          exact (dropProxyResponses_mem _ _ hstub).1 resp hresp
        · intro hstub
          exact (dropProxyResponses_mem _ _ hstub).2.1
        · intro _ _
          rfl
      · simp at h
        subst h
        refine ⟨?_, ?_, ?_⟩
        · intro hstub hresp
          exact (dropProxyResponses_mem _ _ hstub).1 resp hresp
        · intro hstub
          exact (dropProxyResponses_mem _ _ hstub).2.1
        · intro _ h2
          exact absurd h2 (by simp)
  · cases rep <;> cases rem <;> simp at h hRem

/-- Witness for C8: the proxy-free serialization of the busy imposter; the
stub whose only response was a proxy is gone. -/
theorem toJSON_removeProxies_spec_witness :
    (({ matchList := some [4], responses := [literalStubResponse], payload := 0 } : Stub)
        ∈ busyNoProxyJSON.stubs.getD [] →
      literalStubResponse ∈
        ({ matchList := some [4], responses := [literalStubResponse],
           payload := 0 } : Stub).responses →
      literalStubResponse.proxy = none) ∧
    (({ matchList := some [4], responses := [literalStubResponse], payload := 0 } : Stub)
        ∈ busyNoProxyJSON.stubs.getD [] →
      ({ matchList := some [4], responses := [literalStubResponse],
         payload := 0 } : Stub).responses ≠ []) ∧
    (({ list := false, replayable := false, removeProxies := true } : Options).list
        = false →
      ({ list := false, replayable := false, removeProxies := true } : Options).replayable
        = false →
      busyNoProxyJSON.stubs =
        some (dropProxyResponses (stubsSnapshot busyImposter.stubStore))) :=
  toJSON_removeProxies_spec busyImposter
    { list := false, replayable := false, removeProxies := true } busyNoProxyJSON
    { matchList := some [4], responses := [literalStubResponse], payload := 0 }
    literalStubResponse rfl rfl

end Mountebank
